import Mathlib

/-!
Verification of the CrewSync Recommendations page (src/frontend/src/pages/Recommendations.jsx)
and its API client module against the repository specification.

The page is a single-threaded, event-driven view-model. Each async function of the
source is embedded as two phases: a start phase (the synchronous prefix up to the
awaited network call, returning the new state together with the issued request)
and a settle phase (the continuation run when the call resolves or rejects).
JavaScript closure capture is explicit: values a continuation closes over at call
time (the modal record and the selected flight in confirmAssign) are stored in an
AssignCall record; the setTimeout callback's captured flight is stored in a
DelayedTask record. String falsiness (`if (!flightNumber)`, `x || fallback`) is
modelled as equality with the empty string.
-/

namespace CrewSync

/-- HTTP methods used by the API client. -/
inductive Method
  | get
  | post
deriving DecidableEq

/-- Body of the assign-crew POST: `{ flight_number: <string> }`. -/
structure AssignBody where
  flight_number : String
deriving DecidableEq

/-- An outbound HTTP request descriptor: method, full URL, optional JSON body.
Each API-client function constructs exactly one of these. -/
structure Request where
  method : Method
  url : String
  body : Option AssignBody
deriving DecidableEq

/-- `const API_BASE = 'http://localhost:5000/api'` (src/services/api.js). -/
def API_BASE : String := "http://localhost:5000/api"

/-- `getDashboardStats: () => axios.get(API_BASE + '/dashboard/stats')`. -/
def api.getDashboardStats : Request :=
  ⟨Method.get, API_BASE ++ "/dashboard/stats", none⟩

/-- `getAllFlights: () => axios.get(API_BASE + '/flights')`. -/
def api.getAllFlights : Request :=
  ⟨Method.get, API_BASE ++ "/flights", none⟩

/-- `getFlightById: (flightNumber) => axios.get(API_BASE + '/flights/' + flightNumber)`. -/
def api.getFlightById (flightNumber : String) : Request :=
  ⟨Method.get, API_BASE ++ "/flights/" ++ flightNumber, none⟩

/-- `getAllCrew: () => axios.get(API_BASE + '/crew')`. -/
def api.getAllCrew : Request :=
  ⟨Method.get, API_BASE ++ "/crew", none⟩

/-- `getCrewById: (empId) => axios.get(API_BASE + '/crew/' + empId)`. -/
def api.getCrewById (empId : String) : Request :=
  ⟨Method.get, API_BASE ++ "/crew/" ++ empId, none⟩

/-- `getRecommendations: (flightNumber) => axios.get(API_BASE + '/recommendations/' + flightNumber)`. -/
def api.getRecommendations (flightNumber : String) : Request :=
  ⟨Method.get, API_BASE ++ "/recommendations/" ++ flightNumber, none⟩

/-- `assignCrewToFlight: (empId, flightNumber) => axios.post(API_BASE + '/crew/' + empId + '/assign', \x7b flight_number: flightNumber \x7d)`. -/
def api.assignCrewToFlight (empId flightNumber : String) : Request :=
  ⟨Method.post, API_BASE ++ "/crew/" ++ empId ++ "/assign", some ⟨flightNumber⟩⟩

/-- `healthCheck: () => axios.get(API_BASE + '/health')`. -/
def api.healthCheck : Request :=
  ⟨Method.get, API_BASE ++ "/health", none⟩

/-- A Flight record as consumed by the page (spec section 3). -/
structure Flight where
  flightNumber : String
  route : String
  aircraft : String
  departure : String
  crewRequired : Nat
  crewAssigned : Nat
deriving DecidableEq

/-- A Recommendation record as consumed by the page (spec section 3). -/
structure Recommendation where
  emp_id : String
  name : String
  designation : String
  baseLocation : String
  compositeScore : Nat
  rank : Nat
deriving DecidableEq

/-- The success notice set by a successful assignment:
`{ crewName: ..., flightNumber: ... }`. -/
structure SuccessNotice where
  crewName : String
  flightNumber : String
deriving DecidableEq

/-- The view-model of the Recommendations page: the seven useState slots. -/
structure PageState where
  flights : List Flight
  selectedFlight : String
  recommendations : List Recommendation
  loading : Bool
  assignModal : Option Recommendation
  assigning : Bool
  assignSuccess : Option SuccessNotice
deriving DecidableEq

/-- Initial values of the seven useState slots. -/
def initialState : PageState :=
  { flights := []
    selectedFlight := ""
    recommendations := []
    loading := false
    assignModal := none
    assigning := false
    assignSuccess := none }

/-- Outcome of a recommendation fetch: resolved with a data payload, or rejected. -/
inductive FetchOutcome
  | success (data : List Recommendation)
  | failure
deriving DecidableEq

/-- Outcome of the assign-crew call: resolved, or rejected carrying
`error.response?.data?.error` (none when any link of the optional chain is absent). -/
inductive AssignOutcome
  | success
  | failure (errorField : Option String)
deriving DecidableEq

/-- Start phase of `loadRecommendations` (lines 37-40): the guard
`if (!flightNumber) return;`, then `setLoading(true)` and the GET request.
Returns the new state and the issued request, if any. -/
def loadRecommendationsStart (flightNumber : String) (s : PageState) :
    PageState × Option Request :=
  if flightNumber = "" then (s, none)
  else ({ s with loading := true }, some (api.getRecommendations flightNumber))

/-- Settle phase of `loadRecommendations` (lines 41-48): on success
`setRecommendations(response.data)`, on failure `setRecommendations([])`;
the finally block runs `setLoading(false)` in both cases. -/
def loadRecommendationsSettle (outcome : FetchOutcome) (s : PageState) : PageState :=
  match outcome with
  | FetchOutcome.success data => { s with recommendations := data, loading := false }
  | FetchOutcome.failure => { s with recommendations := [], loading := false }

/-- `handleFlightChange` (lines 51-55): `setSelectedFlight(flight)` then
`loadRecommendations(flight)` (its start phase runs synchronously). -/
def handleFlightChange (flight : String) (s : PageState) : PageState × Option Request :=
  loadRecommendationsStart flight { s with selectedFlight := flight }

/-- `handleAssign` (lines 57-59): `setAssignModal(rec)`. -/
def handleAssign (rec : Recommendation) (s : PageState) : PageState :=
  { s with assignModal := some rec }

/-- The values the `confirmAssign` closure (and continuations created inside it)
captured at the moment the call was issued: the modal record and `selectedFlight`
from the render that produced the handler. -/
structure AssignCall where
  modal : Recommendation
  selectedFlight : String
deriving DecidableEq

/-- A task scheduled with `setTimeout(..., 3000)` (lines 82-85). It closes over
the render-time `selectedFlight`, recorded here as `capturedFlight`. -/
structure DelayedTask where
  delayMs : Nat
  capturedFlight : String
deriving DecidableEq

/-- Start phase of `confirmAssign` (lines 61-68): the guard
`if (!assignModal) return;`, then `setAssigning(true)` and the POST
`api.assignCrewToFlight(assignModal.emp_id, selectedFlight)`.
Returns the new state and, when a call is issued, the captured closure
values together with the request. -/
def confirmAssignStart (s : PageState) : PageState × Option (AssignCall × Request) :=
  match s.assignModal with
  | none => (s, none)
  | some m =>
      ({ s with assigning := true },
       some (⟨m, s.selectedFlight⟩,
             api.assignCrewToFlight m.emp_id s.selectedFlight))

/-- Success continuation of `confirmAssign` (lines 70-85 plus the finally block):
`setAssignSuccess(\x7b crewName: assignModal.name, flightNumber: selectedFlight \x7d)`,
`setAssignModal(null)`, `setTimeout(..., 3000)`, `setAssigning(false)`. All values
come from the closure `c`, not from the current state. Returns the new state and
the scheduled delayed task. -/
def confirmAssignSuccess (c : AssignCall) (s : PageState) : PageState × DelayedTask :=
  ({ s with
      assignSuccess := some ⟨c.modal.name, c.selectedFlight⟩
      assignModal := none
      assigning := false },
   ⟨3000, c.selectedFlight⟩)

/-- `const errorMsg = error.response?.data?.error || 'Failed to assign crew'`
(line 91). JavaScript `||` yields the fallback when the left operand is falsy,
i.e. absent or the empty string. -/
def errorMessage (errorField : Option String) : String :=
  match errorField with
  | some e => if e = "" then "Failed to assign crew" else e
  | none => "Failed to assign crew"

/-- The text of the blocking alert: `alert('Error: ' + errorMsg)` (line 92). -/
def alertText (errorField : Option String) : String :=
  "Error: " ++ errorMessage errorField

/-- Failure continuation of `confirmAssign` (lines 87-96): show the alert and,
in the finally block, `setAssigning(false)`. No other slot is written.
Returns the new state and the alert text shown. -/
def confirmAssignFailure (errorField : Option String) (s : PageState) :
    PageState × String :=
  ({ s with assigning := false }, alertText errorField)

/-- Firing of the delayed task (lines 82-85): `loadRecommendations(selectedFlight)`
where `selectedFlight` is the captured value carried by the task, then
`setAssignSuccess(null)`. Returns the new state and the issued request, if any. -/
def timerFire (t : DelayedTask) (s : PageState) : PageState × Option Request :=
  let started := loadRecommendationsStart t.capturedFlight s
  ({ started.1 with assignSuccess := none }, started.2)

/-- The Cancel button (lines 216-222): `onClick=\x7b() => setAssignModal(null)\x7d`
guarded by `disabled=\x7bassigning\x7d` — a click while `assigning` is true does
nothing. -/
def cancelModalClick (s : PageState) : PageState :=
  if s.assigning then s else { s with assignModal := none }

/-- The Confirm button (lines 223-229): `onClick=\x7bconfirmAssign\x7d` guarded by
`disabled=\x7bassigning\x7d` — a click while `assigning` is true does nothing. -/
def confirmClick (s : PageState) : PageState × Option (AssignCall × Request) :=
  if s.assigning then (s, none) else confirmAssignStart s

/-- The whole interactive system: the page view-model plus the environment's
bookkeeping — in-flight assignment calls, scheduled delayed tasks, and logs of
issued recommendation fetches, issued assign POSTs, and shown alerts
(most recent first). -/
structure World where
  page : PageState
  pendingAssigns : List AssignCall
  timers : List DelayedTask
  fetchLog : List Request
  assignLog : List Request
  alerts : List String
deriving DecidableEq

/-- The world right after mount, before any event. -/
def initialWorld : World :=
  { page := initialState
    pendingAssigns := []
    timers := []
    fetchLog := []
    assignLog := []
    alerts := [] }

/-- The events the page reacts to: user input and asynchronous completions. -/
inductive Event
  | flightChange (value : String)
  | fetchSettle (outcome : FetchOutcome)
  | openAssignModal (rec : Recommendation)
  | cancelClick
  | confirmClickEv
  | assignSettle (outcome : AssignOutcome)
  | fireTimer
deriving DecidableEq

/-- One step of the page's event loop. Settling events act on the head of the
corresponding pending list and are no-ops when nothing is pending. -/
def step (w : World) (e : Event) : World :=
  match e with
  | Event.flightChange v =>
      { w with
          page := (handleFlightChange v w.page).1
          fetchLog := (handleFlightChange v w.page).2.toList ++ w.fetchLog }
  | Event.fetchSettle o =>
      { w with page := loadRecommendationsSettle o w.page }
  | Event.openAssignModal r =>
      { w with page := handleAssign r w.page }
  | Event.cancelClick =>
      { w with page := cancelModalClick w.page }
  | Event.confirmClickEv =>
      match (confirmClick w.page).2 with
      | none => { w with page := (confirmClick w.page).1 }
      | some cr =>
          { w with
              page := (confirmClick w.page).1
              pendingAssigns := cr.1 :: w.pendingAssigns
              assignLog := cr.2 :: w.assignLog }
  | Event.assignSettle o =>
      match w.pendingAssigns with
      | [] => w
      | c :: rest =>
          match o with
          | AssignOutcome.success =>
              { w with
                  page := (confirmAssignSuccess c w.page).1
                  pendingAssigns := rest
                  timers := (confirmAssignSuccess c w.page).2 :: w.timers }
          | AssignOutcome.failure errF =>
              { w with
                  page := (confirmAssignFailure errF w.page).1
                  pendingAssigns := rest
                  alerts := (confirmAssignFailure errF w.page).2 :: w.alerts }
  | Event.fireTimer =>
      match w.timers with
      | [] => w
      | t :: rest =>
          { w with
              page := (timerFire t w.page).1
              timers := rest
              fetchLog := (timerFire t w.page).2.toList ++ w.fetchLog }

/-- Run a list of events from a given world. -/
def runFrom (w : World) (events : List Event) : World :=
  events.foldl step w

/-- Run a list of events from the initial world. -/
def run (events : List Event) : World :=
  runFrom initialWorld events

/-- Modelled from the spec: the named capabilities of the capability table in
section 4.1 (list flights, get flight, list crew, get crew, get recommendations,
assign crew, health check). -/
inductive Capability
  | listFlights
  | getFlight (flightNumber : String)
  | listCrew
  | getCrew (empId : String)
  | getRecommendations (flightNumber : String)
  | assignCrew (empId : String) (flightNumber : String)
  | healthCheck
deriving DecidableEq

/-- Modelled from the spec: the request each capability-table row prescribes —
method and path template against the fixed base address, with the assign-crew
body exactly \x7b flight_number \x7d (sections 4.1 and 6). -/
def specRequest : Capability → Request
  | Capability.listFlights => ⟨Method.get, API_BASE ++ "/flights", none⟩
  | Capability.getFlight fn => ⟨Method.get, API_BASE ++ "/flights/" ++ fn, none⟩
  | Capability.listCrew => ⟨Method.get, API_BASE ++ "/crew", none⟩
  | Capability.getCrew eid => ⟨Method.get, API_BASE ++ "/crew/" ++ eid, none⟩
  | Capability.getRecommendations fn =>
      ⟨Method.get, API_BASE ++ "/recommendations/" ++ fn, none⟩
  | Capability.assignCrew eid fn =>
      ⟨Method.post, API_BASE ++ "/crew/" ++ eid ++ "/assign", some ⟨fn⟩⟩
  | Capability.healthCheck => ⟨Method.get, API_BASE ++ "/health", none⟩

/-- The request the API client's corresponding function actually constructs for
each capability of the table. -/
def apiRequest : Capability → Request
  | Capability.listFlights => api.getAllFlights
  | Capability.getFlight fn => api.getFlightById fn
  | Capability.listCrew => api.getAllCrew
  | Capability.getCrew eid => api.getCrewById eid
  | Capability.getRecommendations fn => api.getRecommendations fn
  | Capability.assignCrew eid fn => api.assignCrewToFlight eid fn
  | Capability.healthCheck => api.healthCheck

/-- A request matches the spec's capability table when some table row, at some
parameter values, prescribes exactly that request. -/
def matchesCapabilityTable (r : Request) : Prop :=
  ∃ c : Capability, specRequest c = r

/-- A concrete recommendation record, used in counterexamples and witnesses
(spec section 8 scenario). -/
def rec1 : Recommendation :=
  { emp_id := "E1"
    name := "Asha Rao"
    designation := "Captain"
    baseLocation := "DEL"
    compositeScore := 88
    rank := 1 }

/-- A concrete execution: select AI101, receive one recommendation, open the
modal for it, confirm, assignment succeeds (timer scheduled with captured
flight AI101), then the user switches to AI202 and its fetch settles, and
finally the 3000ms timer fires. -/
def c1Events : List Event :=
  [ Event.flightChange "AI101",
    Event.fetchSettle (FetchOutcome.success [rec1]),
    Event.openAssignModal rec1,
    Event.confirmClickEv,
    Event.assignSettle AssignOutcome.success,
    Event.flightChange "AI202",
    Event.fetchSettle (FetchOutcome.success []),
    Event.fireTimer ]

/-- A concrete world with flight AI101 selected and the confirmation modal open
for `rec1`, no call in flight. -/
def c1World : World :=
  { page := { initialState with selectedFlight := "AI101", assignModal := some rec1 }
    pendingAssigns := []
    timers := []
    fetchLog := []
    assignLog := []
    alerts := [] }

/-- A concrete page state with the confirmation modal open for `rec1`. -/
def c3Page : PageState :=
  { initialState with selectedFlight := "AI101", assignModal := some rec1 }

/-- The invariant behind single-flight assignment: at most one assign call is
pending, and none is pending unless `assigning` is true. -/
def AtMostOneAssign (w : World) : Prop :=
  w.pendingAssigns.length ≤ 1
  ∧ (w.page.assigning = false → w.pendingAssigns = [])

/-- A concrete page state with the modal open while an assignment is in flight. -/
def c8Page : PageState :=
  { initialState with
      selectedFlight := "AI101"
      assignModal := some rec1
      assigning := true }

/-- A concrete world with one assignment call in flight for `rec1` on AI101. -/
def c10World : World :=
  { page := c8Page
    pendingAssigns := [⟨rec1, "AI101"⟩]
    timers := []
    fetchLog := []
    assignLog := [api.assignCrewToFlight "E1" "AI101"]
    alerts := [] }

/-- Helper: the start phase of a recommendation load writes only `loading`. -/
theorem loadRecommendationsStart_frame (f : String) (s : PageState) :
    (loadRecommendationsStart f s).1.assigning = s.assigning
    ∧ (loadRecommendationsStart f s).1.assignModal = s.assignModal
    ∧ (loadRecommendationsStart f s).1.assignSuccess = s.assignSuccess
    ∧ (loadRecommendationsStart f s).1.selectedFlight = s.selectedFlight
    ∧ (loadRecommendationsStart f s).1.recommendations = s.recommendations
    ∧ (loadRecommendationsStart f s).1.flights = s.flights := by
  by_cases h : f = "" <;> simp [loadRecommendationsStart, h]

/-- Helper: the settle phase of a recommendation load writes only
`recommendations` and `loading`. -/
theorem loadRecommendationsSettle_frame (o : FetchOutcome) (s : PageState) :
    (loadRecommendationsSettle o s).assigning = s.assigning
    ∧ (loadRecommendationsSettle o s).assignModal = s.assignModal
    ∧ (loadRecommendationsSettle o s).assignSuccess = s.assignSuccess
    ∧ (loadRecommendationsSettle o s).selectedFlight = s.selectedFlight := by
  cases o <;> simp [loadRecommendationsSettle]

/-- Helper: changing the selected flight never touches the assignment slots. -/
theorem handleFlightChange_frame (v : String) (s : PageState) :
    (handleFlightChange v s).1.assigning = s.assigning
    ∧ (handleFlightChange v s).1.assignModal = s.assignModal
    ∧ (handleFlightChange v s).1.selectedFlight = v := by
  by_cases h : v = "" <;> simp [handleFlightChange, loadRecommendationsStart, h]

/-- Helper: firing the delayed task never touches `assigning` or `assignModal`,
and always clears the success notice. -/
theorem timerFire_frame (t : DelayedTask) (s : PageState) :
    (timerFire t s).1.assigning = s.assigning
    ∧ (timerFire t s).1.assignModal = s.assignModal
    ∧ (timerFire t s).1.assignSuccess = none := by
  by_cases h : t.capturedFlight = "" <;>
    simp [timerFire, loadRecommendationsStart, h]

/-- Helper: cancelling never touches `assigning`. -/
theorem cancelModalClick_assigning (s : PageState) :
    (cancelModalClick s).assigning = s.assigning := by
  by_cases h : s.assigning <;> simp [cancelModalClick, h]

/-- Helper: one step of the event loop preserves the single-assignment
invariant. -/
theorem atMostOne_step (w : World) (e : Event) (hw : AtMostOneAssign w) :
    AtMostOneAssign (step w e) := by
  obtain ⟨h1, h2⟩ := hw
  cases e with
  | flightChange v =>
      refine ⟨by simpa [step] using h1, fun ha => h2 ?_⟩
      rw [← (handleFlightChange_frame v w.page).1]
      simpa [step] using ha
  | fetchSettle o =>
      refine ⟨by simpa [step] using h1, fun ha => h2 ?_⟩
      rw [← (loadRecommendationsSettle_frame o w.page).1]
      simpa [step] using ha
  | openAssignModal r =>
      refine ⟨by simpa [step] using h1, fun ha => h2 ?_⟩
      simpa [step, handleAssign] using ha
  | cancelClick =>
      refine ⟨by simpa [step] using h1, fun ha => h2 ?_⟩
      rw [← cancelModalClick_assigning w.page]
      simpa [step] using ha
  | confirmClickEv =>
      by_cases ha : w.page.assigning = true
      · have hc : confirmClick w.page = (w.page, none) := by
          simp [confirmClick, ha]
        have hs : step w Event.confirmClickEv = w := by simp [step, hc]
        rw [hs]; exact ⟨h1, h2⟩
      · have ha' : w.page.assigning = false := by
          simpa using ha
        have hp : w.pendingAssigns = [] := h2 ha'
        cases hm : w.page.assignModal with
        | none =>
            have hc : confirmClick w.page = (w.page, none) := by
              simp [confirmClick, ha', confirmAssignStart, hm]
            have hs : step w Event.confirmClickEv = w := by simp [step, hc]
            rw [hs]; exact ⟨h1, h2⟩
        | some m =>
            have hc : confirmClick w.page
                = ({ w.page with assigning := true },
                   some (⟨m, w.page.selectedFlight⟩,
                         api.assignCrewToFlight m.emp_id w.page.selectedFlight)) := by
              simp [confirmClick, ha', confirmAssignStart, hm]
            refine ⟨?_, ?_⟩ <;> simp [step, hc, hp]
  | assignSettle o =>
      cases hp : w.pendingAssigns with
      | nil =>
          have hs : step w (Event.assignSettle o) = w := by simp [step, hp]
          rw [hs]; exact ⟨h1, h2⟩
      | cons c rest =>
          have hlen : rest.length + 1 ≤ 1 := by
            rw [hp] at h1; simpa using h1
          have hr : rest = [] := List.length_eq_zero.mp (by omega)
          cases o with
          | success =>
              refine ⟨?_, ?_⟩ <;> simp [step, hp, hr, confirmAssignSuccess]
          | failure errF =>
              refine ⟨?_, ?_⟩ <;> simp [step, hp, hr, confirmAssignFailure]
  | fireTimer =>
      cases ht : w.timers with
      | nil =>
          have hs : step w Event.fireTimer = w := by simp [step, ht]
          rw [hs]; exact ⟨h1, h2⟩
      | cons t rest =>
          constructor
          · simpa [step, ht] using h1
          · intro ha
            have hwp : w.page.assigning = false := by
              rw [← (timerFire_frame t w.page).1]
              simpa [step, ht] using ha
            simpa [step, ht] using h2 hwp

/-- Helper: the single-assignment invariant is preserved along any run. -/
theorem atMostOne_runFrom (w : World) (events : List Event)
    (hw : AtMostOneAssign w) : AtMostOneAssign (runFrom w events) := by
  induction events generalizing w with
  | nil => simpa [runFrom] using hw
  | cons e es ih =>
      have hstep := atMostOne_step w e hw
      simpa [runFrom] using ih (step w e) hstep

/-- Helper: a string extending `a` on the right cannot equal `b` when `a`'s
character list does not begin `b`'s character list. -/
theorem string_append_ne (a b x : String) (h : ¬ a.data <+: b.data) :
    a ++ x ≠ b := fun he =>
  h ⟨x.data, by simpa [String.data_append] using congrArg String.data he⟩

/-- Claim C2: for every recommendation load with a non-empty flight number,
`loading` is set to true in the start phase together with the issue of the GET;
on success `recommendations` is replaced wholesale by the response list; on
failure it is set to the empty list; in both outcomes `loading` is false when
the operation completes. With an empty flight number the operation is a no-op
that changes no state and issues no request. -/
theorem c2_load_recommendations_contract (flightNumber : String) (s : PageState)
    (L : List Recommendation) (h : flightNumber ≠ "") :
    (loadRecommendationsStart flightNumber s).1.loading = true
    ∧ (loadRecommendationsStart flightNumber s).2
        = some (api.getRecommendations flightNumber)
    ∧ (loadRecommendationsSettle (FetchOutcome.success L)
        (loadRecommendationsStart flightNumber s).1).recommendations = L
    ∧ (loadRecommendationsSettle (FetchOutcome.success L)
        (loadRecommendationsStart flightNumber s).1).loading = false
    ∧ (loadRecommendationsSettle FetchOutcome.failure
        (loadRecommendationsStart flightNumber s).1).recommendations = []
    ∧ (loadRecommendationsSettle FetchOutcome.failure
        (loadRecommendationsStart flightNumber s).1).loading = false
    ∧ (∀ t : PageState, loadRecommendationsStart "" t = (t, none)) := by
  simp [loadRecommendationsStart, loadRecommendationsSettle, h]

/-- Witness for C2 at the concrete flight AI101. -/
theorem c2_witness :
    ("AI101" : String) ≠ ""
    ∧ (loadRecommendationsStart "AI101" initialState).1.loading = true :=
  ⟨by decide,
   (c2_load_recommendations_contract "AI101" initialState [] (by decide)).1⟩

/-- Claim C3 counterexample: the claim says the user-visible message equals the
server's structured error field whenever that field is present; but when the
field is present and empty, JavaScript `||` discards it and the fallback is
shown instead, so the message differs from the field. -/
theorem c3_counterexample :
    errorMessage (some "") ≠ ""
    ∧ errorMessage (some "") = "Failed to assign crew"
    ∧ (confirmAssignFailure (some "") initialState).2
        = "Error: Failed to assign crew" := by
  refine ⟨by decide, rfl, rfl⟩

/-- Claim C3 (amended): when the assignment call fails, the message displayed
in the blocking alert equals the server's structured error field when that
field is present and non-empty, and otherwise the fixed fallback string
"Failed to assign crew"; `assignModal` remains set; `assigning` is returned
to false. -/
theorem c3_assign_failure (errF : Option String) (s : PageState)
    (m : Recommendation) (hm : s.assignModal = some m) :
    (∀ e : String, errF = some e → e ≠ "" → errorMessage errF = e)
    ∧ (errF = none → errorMessage errF = "Failed to assign crew")
    ∧ (errF = some "" → errorMessage errF = "Failed to assign crew")
    ∧ (confirmAssignFailure errF s).2 = "Error: " ++ errorMessage errF
    ∧ (confirmAssignFailure errF s).1.assignModal = some m
    ∧ (confirmAssignFailure errF s).1.assigning = false := by
  refine ⟨?_, ?_, ?_, rfl, by simp [confirmAssignFailure, hm], rfl⟩
  · rintro e rfl he
    simp [errorMessage, he]
  · rintro rfl
    rfl
  · rintro rfl
    rfl

/-- Witness for C3 at a concrete non-empty server error field. -/
theorem c3_witness :
    errorMessage (some "Crew member not found") = "Crew member not found"
    ∧ (confirmAssignFailure (some "Crew member not found") c3Page).1.assignModal
        = some rec1 :=
  ⟨(c3_assign_failure (some "Crew member not found") c3Page rec1 rfl).1
      "Crew member not found" rfl (by decide),
   (c3_assign_failure (some "Crew member not found") c3Page rec1 rfl).2.2.2.2.1⟩

/-- Claim C4: confirming is a no-op when `assignModal` is absent; otherwise it
sets `assigning` to true and issues the assign POST with the modal's employee
id and the current `selectedFlight`; on success it sets `assignSuccess` to the
captured crew name and flight, clears `assignModal`, and schedules the single
3000ms-delayed task that reloads recommendations and clears the notice. -/
theorem c4_confirm_assign_contract (s : PageState) (m : Recommendation)
    (hm : s.assignModal = some m) :
    (confirmAssignStart s).1 = { s with assigning := true }
    ∧ (confirmAssignStart s).2
        = some (⟨m, s.selectedFlight⟩,
                api.assignCrewToFlight m.emp_id s.selectedFlight)
    ∧ (∀ u : PageState,
        (confirmAssignSuccess ⟨m, s.selectedFlight⟩ u).1.assignSuccess
            = some ⟨m.name, s.selectedFlight⟩
        ∧ (confirmAssignSuccess ⟨m, s.selectedFlight⟩ u).1.assignModal = none
        ∧ (confirmAssignSuccess ⟨m, s.selectedFlight⟩ u).2
            = ⟨3000, s.selectedFlight⟩)
    ∧ (∀ u : PageState,
        (timerFire ⟨3000, s.selectedFlight⟩ u).1.assignSuccess = none)
    ∧ (s.selectedFlight ≠ "" → ∀ u : PageState,
        (timerFire ⟨3000, s.selectedFlight⟩ u).2
          = some (api.getRecommendations s.selectedFlight))
    ∧ (∀ t : PageState, t.assignModal = none → confirmAssignStart t = (t, none)) := by
  refine ⟨?_, ?_, fun u => ⟨rfl, rfl, rfl⟩, fun u => (timerFire_frame _ u).2.2,
          fun hf u => ?_, fun t ht => ?_⟩
  · simp [confirmAssignStart, hm]
  · simp [confirmAssignStart, hm]
  · simp [timerFire, loadRecommendationsStart, hf]
  · simp [confirmAssignStart, ht]

/-- Witness for C4 at the concrete modal `rec1` on flight AI101. -/
theorem c4_witness :
    (confirmAssignStart c3Page).2
      = some (⟨rec1, "AI101"⟩, api.assignCrewToFlight "E1" "AI101") :=
  (c4_confirm_assign_contract c3Page rec1 rfl).2.1

/-- Claim C5: a flight-selection event with non-empty value F sets
`selectedFlight` and issues exactly one recommendation fetch for F; a selection
event with the empty-string value issues no fetch and leaves the
recommendations list unchanged. -/
theorem c5_selection_fetch (w : World) (F : String) :
    (step w (Event.flightChange F)).page.selectedFlight = F
    ∧ (F ≠ "" →
        (step w (Event.flightChange F)).fetchLog
          = api.getRecommendations F :: w.fetchLog)
    ∧ (F = "" →
        (step w (Event.flightChange F)).fetchLog = w.fetchLog
        ∧ (step w (Event.flightChange F)).page.recommendations
            = w.page.recommendations) := by
  refine ⟨?_, fun h => ?_, fun h => ⟨?_, ?_⟩⟩
  · simpa [step] using (handleFlightChange_frame F w.page).2.2
  · simp [step, handleFlightChange, loadRecommendationsStart, h]
  · simp [step, handleFlightChange, loadRecommendationsStart, h]
  · simpa [step] using (loadRecommendationsStart_frame F _).2.2.2.2.1

/-- Witness for C5 at the concrete flight AI101. -/
theorem c5_witness :
    (step initialWorld (Event.flightChange "AI101")).fetchLog
      = api.getRecommendations "AI101" :: initialWorld.fetchLog :=
  (c5_selection_fetch initialWorld "AI101").2.1 (by decide)

/-- Claim C6: reloading recommendations for the same flight with the same
server response is idempotent on the displayed list — running the load twice
with response L both times leaves `recommendations` equal to L, with full
replacement and no accumulation. -/
theorem c6_reload_idempotent (flightNumber : String) (s : PageState)
    (L : List Recommendation) (h : flightNumber ≠ "") :
    (loadRecommendationsSettle (FetchOutcome.success L)
      (loadRecommendationsStart flightNumber
        (loadRecommendationsSettle (FetchOutcome.success L)
          (loadRecommendationsStart flightNumber s).1)).1).recommendations
      = (loadRecommendationsSettle (FetchOutcome.success L)
          (loadRecommendationsStart flightNumber s).1).recommendations
    ∧ (loadRecommendationsSettle (FetchOutcome.success L)
        (loadRecommendationsStart flightNumber s).1).recommendations = L := by
  simp [loadRecommendationsStart, loadRecommendationsSettle, h]

/-- Witness for C6 at a concrete flight and response list. -/
theorem c6_witness :
    (loadRecommendationsSettle (FetchOutcome.success [rec1])
      (loadRecommendationsStart "AI101"
        (loadRecommendationsSettle (FetchOutcome.success [rec1])
          (loadRecommendationsStart "AI101" initialState).1)).1).recommendations
      = (loadRecommendationsSettle (FetchOutcome.success [rec1])
          (loadRecommendationsStart "AI101" initialState).1).recommendations :=
  (c6_reload_idempotent "AI101" initialState [rec1] (by decide)).1

/-- Claim C8: while `assigning` is true the confirmation modal cannot be
dismissed — the cancel click is a no-op, so `assignModal` never transitions
from set to absent via cancellation during an in-flight assignment; when
`assigning` is false, cancelling clears `assignModal`. -/
theorem c8_cancel_guard (s : PageState) (h : s.assigning = true) :
    cancelModalClick s = s
    ∧ (∀ t : PageState, t.assigning = false →
        (cancelModalClick t).assignModal = none) := by
  constructor
  · simp [cancelModalClick, h]
  · intro t ht
    simp [cancelModalClick, ht]

/-- Witness for C8 at a concrete in-flight state. -/
theorem c8_witness : cancelModalClick c8Page = c8Page :=
  (c8_cancel_guard c8Page rfl).1

/-- Claim C9: in every reachable state of the event loop at most one assignment
call is pending, and none is pending once `assigning` has returned to false —
the disabled confirm button prevents a second POST to the assign endpoint until
the pending call settles. -/
theorem c9_single_assignment_in_flight (events : List Event) :
    (run events).pendingAssigns.length ≤ 1
    ∧ ((run events).page.assigning = false → (run events).pendingAssigns = []) :=
  atMostOne_runFrom initialWorld events ⟨by simp [initialWorld], fun _ => rfl⟩

/-- Witness for C9 on the concrete execution `c1Events`. -/
theorem c9_witness : (run c1Events).pendingAssigns.length ≤ 1 :=
  (c9_single_assignment_in_flight c1Events).1

/-- Claim C10: when the pending assignment call fails, every view-model slot
other than `assigning` is unchanged — `assignSuccess` is not set, no delayed
task is scheduled, no fetch is issued, and `flights`, `selectedFlight`,
`recommendations`, `loading`, and `assignModal` retain their pre-call values;
`assigning` is false afterwards. -/
theorem c10_failure_frame (w : World) (c : AssignCall) (rest : List AssignCall)
    (errF : Option String) (hp : w.pendingAssigns = c :: rest) :
    (step w (Event.assignSettle (AssignOutcome.failure errF))).page.assigning = false
    ∧ (step w (Event.assignSettle (AssignOutcome.failure errF))).page.flights
        = w.page.flights
    ∧ (step w (Event.assignSettle (AssignOutcome.failure errF))).page.selectedFlight
        = w.page.selectedFlight
    ∧ (step w (Event.assignSettle (AssignOutcome.failure errF))).page.recommendations
        = w.page.recommendations
    ∧ (step w (Event.assignSettle (AssignOutcome.failure errF))).page.loading
        = w.page.loading
    ∧ (step w (Event.assignSettle (AssignOutcome.failure errF))).page.assignModal
        = w.page.assignModal
    ∧ (step w (Event.assignSettle (AssignOutcome.failure errF))).page.assignSuccess
        = w.page.assignSuccess
    ∧ (step w (Event.assignSettle (AssignOutcome.failure errF))).timers = w.timers
    ∧ (step w (Event.assignSettle (AssignOutcome.failure errF))).fetchLog = w.fetchLog
    ∧ (step w (Event.assignSettle (AssignOutcome.failure errF))).assignLog
        = w.assignLog := by
  simp [step, hp, confirmAssignFailure]

/-- Witness for C10 at a concrete world with one pending call. -/
theorem c10_witness :
    (step c10World (Event.assignSettle (AssignOutcome.failure none))).page.assignSuccess
      = c10World.page.assignSuccess
    ∧ (step c10World (Event.assignSettle (AssignOutcome.failure none))).timers
      = c10World.timers :=
  ⟨(c10_failure_frame c10World ⟨rec1, "AI101"⟩ [] none rfl).2.2.2.2.2.2.1,
   (c10_failure_frame c10World ⟨rec1, "AI101"⟩ [] none rfl).2.2.2.2.2.2.2.1⟩

/-- Claim C1 counterexample: the claim says the 3000ms-delayed reload targets
whatever `selectedFlight` is current at the moment the timer fires. In the
execution `c1Events` the user confirms while AI101 is selected and switches to
AI202 before the timer fires, yet the fetch issued by the timer targets AI101
— the setTimeout callback closes over the render-time `selectedFlight`, not
the current one. -/
theorem c1_counterexample :
    (run c1Events).page.selectedFlight = "AI202"
    ∧ (run c1Events).fetchLog.head? = some (api.getRecommendations "AI101")
    ∧ api.getRecommendations "AI101" ≠ api.getRecommendations "AI202" := by
  refine ⟨rfl, rfl, by decide⟩

/-- Claim C1 (amended): after a successful assignment the 3000ms-delayed task
clears the success notice and re-fetches recommendations for the value of
`selectedFlight` captured at confirmation time: for every execution where
`selectedFlight` is changed between confirmation and timer fire, the delayed
reload still targets the captured value. -/
theorem c1_delayed_reload_captured (w : World) (m : Recommendation) (v : String)
    (hm : w.page.assignModal = some m)
    (ha : w.page.assigning = false)
    (hf : w.page.selectedFlight ≠ "") :
    (runFrom w [Event.confirmClickEv, Event.assignSettle AssignOutcome.success,
                Event.flightChange v, Event.fireTimer]).fetchLog.head?
      = some (api.getRecommendations w.page.selectedFlight)
    ∧ (runFrom w [Event.confirmClickEv, Event.assignSettle AssignOutcome.success,
                  Event.flightChange v, Event.fireTimer]).page.assignSuccess
      = none := by
  have hc : confirmClick w.page
      = ({ w.page with assigning := true },
         some (⟨m, w.page.selectedFlight⟩,
               api.assignCrewToFlight m.emp_id w.page.selectedFlight)) := by
    simp [confirmClick, ha, confirmAssignStart, hm]
  constructor
  · by_cases hv : v = "" <;>
      simp [runFrom, step, hc, confirmAssignSuccess, handleFlightChange,
            loadRecommendationsStart, timerFire, hv, hf]
  · by_cases hv : v = "" <;>
      simp [runFrom, step, hc, confirmAssignSuccess, handleFlightChange,
            loadRecommendationsStart, timerFire, hv, hf]

/-- Witness for the amended C1: confirm on AI101, switch to AI202, timer fires,
and the issued fetch targets AI101. -/
theorem c1_witness :
    (runFrom c1World
        [Event.confirmClickEv, Event.assignSettle AssignOutcome.success,
         Event.flightChange "AI202", Event.fireTimer]).fetchLog.head?
      = some (api.getRecommendations "AI101") :=
  (c1_delayed_reload_captured c1World rec1 "AI202" rfl rfl (by decide)).1

/-- Claim C7 counterexample: the claim says each API-client operation matches
the spec's capability table, but `getDashboardStats` — a GET to
/dashboard/stats — corresponds to no row of the table. -/
theorem c7_counterexample : ¬ matchesCapabilityTable api.getDashboardStats := by
  rintro ⟨c, hc⟩
  cases c with
  | listFlights => exact absurd hc (by decide)
  | getFlight fn =>
      exact string_append_ne (API_BASE ++ "/flights/")
        (API_BASE ++ "/dashboard/stats") fn (by decide)
        (congrArg Request.url hc)
  | listCrew => exact absurd hc (by decide)
  | getCrew eid =>
      exact string_append_ne (API_BASE ++ "/crew/")
        (API_BASE ++ "/dashboard/stats") eid (by decide)
        (congrArg Request.url hc)
  | getRecommendations fn =>
      exact string_append_ne (API_BASE ++ "/recommendations/")
        (API_BASE ++ "/dashboard/stats") fn (by decide)
        (congrArg Request.url hc)
  | assignCrew eid fn =>
      have hme : Method.post = Method.get := congrArg Request.method hc
      exact absurd hme (by decide)
  | healthCheck => exact absurd hc (by decide)

/-- Claim C7 (amended): every capability of the spec's table is implemented by
the API client as exactly the one request the table prescribes — method and
path template against the fixed base address, with the assign-crew body exactly
the given flight number — while the additional `getDashboardStats` operation
(a GET to /dashboard/stats) has no row in the table. -/
theorem c7_api_matches_table (c : Capability) :
    apiRequest c = specRequest c
    ∧ api.getDashboardStats
        = ⟨Method.get, API_BASE ++ "/dashboard/stats", none⟩
    ∧ (∀ eid fn : String,
        api.assignCrewToFlight eid fn
          = ⟨Method.post, API_BASE ++ "/crew/" ++ eid ++ "/assign", some ⟨fn⟩⟩) := by
  refine ⟨?_, rfl, fun eid fn => rfl⟩
  cases c <;> rfl

end CrewSync
